import Mathlib

set_option maxHeartbeats 1000000
set_option maxRecDepth 4000

/-!
Verification development for the upapasta orchestrator.

The development shallowly embeds the Python sources:
  * `UPP.*`  — `UploadProgressParser` of `src/main.py` (the nyuu-output
    progress parser).  Wall-clock time is threaded explicitly (each call to
    `time.time()` inside one `parse_line` call yields the same instant `now`),
    floats are modelled as exact rationals, and a raised `ValueError` is
    modelled by a `none` event together with the parser state as mutated up
    to the raising statement.
  * `Upa.*`  — the orchestrator of `src/upapasta/main.py` (`validate`,
    `run_makerar`, `run_makepar`, `run_upload`, `cleanup`, `run`,
    credential loading/prompting).  The filesystem is a pair of path lists,
    the external tools (`make_rar`, `make_parity`, `upload_to_usenet` — the
    latter two are not part of the sources and are, per the spec, opaque
    external collaborators) are oracles giving a return code, an
    exception flag and a filesystem effect.  Print statements and the
    timing/size statistics, which only affect the textual report, are elided.
  * `MPy.*`  — the process-supervision behaviour of `src/main.py`
    (`subprocess.run(..., timeout=3600)` in the archive and parity stages,
    `Popen`/`wait()` without timeout in the upload stage) and of
    `run_command_with_pty` in `src/src/upapasta/main.py` (also no timeout),
    abstracted over a child process that either terminates after a given
    duration or hangs.
-/

namespace UPP

abbrev Chars := List Char

/-- Lowercasing used to model `line.lower()` and `re.IGNORECASE`
(ASCII lines as produced by nyuu). -/
def lowerChars (cs : Chars) : Chars := cs.map Char.toLower

/-- Does `big` start with `small`? -/
def startsWithB : Chars → Chars → Bool
  | [], _ => true
  | _ :: _, [] => false
  | a :: as, b :: bs => a == b && startsWithB as bs

/-- Contiguous-substring test, modelling Python `needle in hay`. -/
def containsSub (needle : Chars) : Chars → Bool
  | [] => startsWithB needle []
  | c :: cs => startsWithB needle (c :: cs) || containsSub needle cs

/-- Consume a literal; `some rest` on success.  Models a literal regex part. -/
def dropLit : Chars → Chars → Option Chars
  | [], rest => some rest
  | _ :: _, [] => none
  | a :: as, b :: bs => if a == b then dropLit as bs else none

/-- Greedy run of decimal digits (regex `\d*`). -/
def munchDigits : Chars → Chars × Chars
  | [] => ([], [])
  | c :: cs =>
    if c.isDigit then
      let p := munchDigits cs
      (c :: p.1, p.2)
    else ([], c :: cs)

/-- Greedy nonempty run of decimal digits (regex `\d+`). -/
def munchDigits1 (l : Chars) : Option (Chars × Chars) :=
  match munchDigits l with
  | ([], _) => none
  | (d, r) => some (d, r)

/-- Greedy run of characters of the class `[\d.]` (regex `[\d.]*`). -/
def munchNumDot : Chars → Chars × Chars
  | [] => ([], [])
  | c :: cs =>
    if c.isDigit || c == '.' then
      let p := munchNumDot cs
      (c :: p.1, p.2)
    else ([], c :: cs)

/-- Greedy nonempty `[\d.]+` run. -/
def munchNumDot1 (l : Chars) : Option (Chars × Chars) :=
  match munchNumDot l with
  | ([], _) => none
  | (d, r) => some (d, r)

/-- Greedy whitespace run (regex `\s*`), returning the rest. -/
def dropWs : Chars → Chars
  | [] => []
  | c :: cs => if c.isWhitespace then dropWs cs else c :: cs

/-- Regex `\s+`: at least one whitespace character, then a greedy run. -/
def dropWs1 : Chars → Option Chars
  | [] => none
  | c :: cs => if c.isWhitespace then some (dropWs cs) else none

/-- Numeric value of a digit run. -/
def digitsToNat (ds : Chars) : ℕ :=
  ds.foldl (fun n c => 10 * n + (c.toNat - 48)) 0

/-- Value of a decimal literal `intPart.fracPart` (fracPart may be empty). -/
def decValue (intPart fracPart : Chars) : ℚ :=
  (digitsToNat intPart : ℚ) + (digitsToNat fracPart : ℚ) / ((10 : ℚ) ^ fracPart.length)

/-- `re.search` over this line: try the anchored matcher at every position,
leftmost success first. -/
def searchWith {α : Type} (m : Chars → Option α) : Chars → Option α
  | [] => m []
  | c :: cs => (m (c :: cs)).orElse (fun _ => searchWith m cs)

/-- Python `float(s)` restricted to strings over `[\d.]` (the only shape
pattern 9 can capture): defined exactly when there is at least one digit and
at most one dot; `ValueError` otherwise. -/
def pyFloat? (cs : Chars) : Option ℚ :=
  if (cs.filter (fun c => c == '.')).length ≤ 1 && cs.any Char.isDigit then
    some (decValue (cs.takeWhile (fun c => !(c == '.')))
                   ((cs.dropWhile (fun c => !(c == '.'))).drop 1))
  else none

/-- Python `int()` truncation toward zero, on rationals. -/
def pyInt (q : ℚ) : ℤ := if 0 ≤ q then ⌊q⌋ else ⌈q⌉

/-- Anchored matcher for the tail group `(\d+(?:\.\d+)?) MiB` of pattern 1. -/
def matchDecMiBAt (l : Chars) : Option ℚ :=
  (munchDigits1 l).bind fun p =>
    match p.2 with
    | '.' :: r2 =>
      (munchDigits1 r2).bind fun q =>
        (dropLit " MiB".data q.2).map fun _ => decValue p.1 q.1
    | r2 => (dropLit " MiB".data r2).map fun _ => decValue p.1 []

/-- Pattern 1 anchored: `Uploading (\d+) article\(s\).*?(\d+(?:\.\d+)?) MiB`. -/
def matchUploadingAt (l : Chars) : Option (ℕ × ℚ) :=
  (dropLit "Uploading ".data l).bind fun r1 =>
  (munchDigits1 r1).bind fun p =>
  (dropLit " article(s)".data p.2).bind fun r3 =>
  (searchWith matchDecMiBAt r3).map fun q => (digitsToNat p.1, q)

/-- Pattern 1 matcher (`re.search`). -/
def p1 (l : Chars) : Option (ℕ × ℚ) := searchWith matchUploadingAt l

/-- Pattern 2 anchored: `Uploaded (\d+)/(\d+) articles`. -/
def matchUploadedAt (l : Chars) : Option (ℕ × ℕ) :=
  (dropLit "Uploaded ".data l).bind fun r1 =>
  (munchDigits1 r1).bind fun p =>
  (dropLit "/".data p.2).bind fun r3 =>
  (munchDigits1 r3).bind fun q =>
  (dropLit " articles".data q.2).map fun _ => (digitsToNat p.1, digitsToNat q.1)

/-- Pattern 2 matcher. -/
def p2 (l : Chars) : Option (ℕ × ℕ) := searchWith matchUploadedAt l

/-- Pattern 3 anchored: `(\d+)\s*(?:/|of)\s*(\d+).*?articles?`
(applied to the lowercased line, modelling `re.IGNORECASE`). -/
def matchFracArticlesAt (l : Chars) : Option (ℕ × ℕ) :=
  (munchDigits1 l).bind fun p =>
  (match dropLit "/".data (dropWs p.2) with
   | some r3 => some r3
   | none => dropLit "of".data (dropWs p.2)).bind fun r3 =>
  (munchDigits1 (dropWs r3)).bind fun q =>
  if containsSub "article".data q.2 then some (digitsToNat p.1, digitsToNat q.1)
  else none

/-- Pattern 3 matcher. -/
def p3 (l : Chars) : Option (ℕ × ℕ) := searchWith matchFracArticlesAt l

/-- Pattern 4 anchored: `(?:sending\s+)?article\s+(\d+)\s+of\s+(\d+)`
(the optional `sending` part never changes the captures, so the anchored
matcher starts at `article`). -/
def matchArticleOfAt (l : Chars) : Option (ℕ × ℕ) :=
  (dropLit "article".data l).bind fun r1 =>
  (dropWs1 r1).bind fun r2 =>
  (munchDigits1 r2).bind fun p =>
  (dropWs1 p.2).bind fun r4 =>
  (dropLit "of".data r4).bind fun r5 =>
  (dropWs1 r5).bind fun r6 =>
  (munchDigits1 r6).map fun q => (digitsToNat p.1, digitsToNat q.1)

/-- Pattern 4 matcher. -/
def p4 (l : Chars) : Option (ℕ × ℕ) := searchWith matchArticleOfAt l

/-- Pattern 5 anchored: bare `(\d+)\s*/\s*(\d+)`. -/
def matchBareFracAt (l : Chars) : Option (ℕ × ℕ) :=
  (munchDigits1 l).bind fun p =>
  (dropLit "/".data (dropWs p.2)).bind fun r2 =>
  (munchDigits1 (dropWs r2)).map fun q => (digitsToNat p.1, digitsToNat q.1)

/-- Pattern 5 matcher. -/
def p5 (l : Chars) : Option (ℕ × ℕ) := searchWith matchBareFracAt l

/-- Pattern 6 anchored: `(\d+(?:\.\d+)?)%` (with the regex backtracking on the
optional fraction made explicit). -/
def matchDecPercentAt (l : Chars) : Option ℚ :=
  (munchDigits1 l).bind fun p =>
    match p.2 with
    | '%' :: _ => some (decValue p.1 [])
    | '.' :: r2 =>
      (munchDigits1 r2).bind fun q =>
        match q.2 with
        | '%' :: _ => some (decValue p.1 q.1)
        | _ => none
    | _ => none

/-- Pattern 6 matcher. -/
def p6 (l : Chars) : Option ℚ := searchWith matchDecPercentAt l

/-- Pattern 7 anchored: `(\d+)\s+articles?\s+sent` (lowercased line). -/
def matchSentAt (l : Chars) : Option ℕ :=
  (munchDigits1 l).bind fun p =>
  (dropWs1 p.2).bind fun r2 =>
  (dropLit "article".data r2).bind fun r3 =>
  (dropWs1 (match r3 with | 's' :: t => t | t => t)).bind fun r5 =>
  (dropLit "sent".data r5).map fun _ => digitsToNat p.1

/-- Pattern 7 matcher. -/
def p7 (l : Chars) : Option ℕ := searchWith matchSentAt l

/-- Pattern 8 anchored: `(?:sending|transfer)\s+(\d+)\s*/\s*(\d+)`
(lowercased line). -/
def matchSendingFracAt (l : Chars) : Option (ℕ × ℕ) :=
  ((dropLit "sending".data l).orElse (fun _ => dropLit "transfer".data l)).bind fun r1 =>
  (dropWs1 r1).bind fun r2 =>
  (munchDigits1 r2).bind fun p =>
  (dropLit "/".data (dropWs p.2)).bind fun r4 =>
  (munchDigits1 (dropWs r4)).map fun q => (digitsToNat p.1, digitsToNat q.1)

/-- Pattern 8 matcher. -/
def p8 (l : Chars) : Option (ℕ × ℕ) := searchWith matchSendingFracAt l

/-- Inner anchored matcher for pattern 9's `\(([\d.]+) MiB/s\)`;
the capture is returned raw (it is fed to `float()` separately). -/
def matchParenSpeedAt (l : Chars) : Option Chars :=
  (dropLit "(".data l).bind fun r1 =>
  (munchNumDot1 r1).bind fun p =>
  (dropLit " MiB/s)".data p.2).map fun _ => p.1

/-- Pattern 9 anchored:
`Finished uploading ([\d.]+) MiB.*?\(([\d.]+) MiB/s\)`, raw captures. -/
def matchFinishedAt (l : Chars) : Option (Chars × Chars) :=
  (dropLit "Finished uploading ".data l).bind fun r1 =>
  (munchNumDot1 r1).bind fun p =>
  (dropLit " MiB".data p.2).bind fun r3 =>
  (searchWith matchParenSpeedAt r3).map fun g2 => (p.1, g2)

/-- Pattern 9 matcher. -/
def p9 (l : Chars) : Option (Chars × Chars) := searchWith matchFinishedAt l

/-- The disqualifying size/byte-unit keywords guarding pattern 5. -/
def sizeKeywords : List Chars := ["file", "files", "mb", "mib", "kb", "kib"].map String.data

/-- `any(word in line.lower() for word in [...])` of the pattern-5 guard. -/
def hasSizeKeyword (l : Chars) : Bool :=
  sizeKeywords.any (fun w => containsSub w (lowerChars l))

/-- The info messages `parse_line` can store (pattern 1's totals
announcement and pattern 9's completion announcement), with the formatted
string abstracted to its numeric payload. -/
inductive Info where
  | totals (articles : ℕ) (sizeMiB : ℚ)
  | finished (sizeMiB : ℚ) (speedMiB : ℚ)
deriving DecidableEq, Repr

/-- The `result` dict built by `parse_line`. -/
structure Event where
  raw : String
  info : Option Info
  progress : Option ℚ
  speed : Option ℚ
  eta : Option ℤ
deriving DecidableEq, Repr

/-- The mutable fields of `UploadProgressParser` (the `debug` flag only
changes printing and is elided). -/
structure ParserState where
  total_articles : Option ℕ := none
  uploaded_articles : ℕ := 0
  total_size : Option ℚ := none
  uploaded_size : ℚ := 0
  start_time : Option ℚ := none
  lines_processed : ℕ := 0
deriving DecidableEq, Repr

/-- Freshly constructed parser. -/
def pInit : ParserState := {}

/-- The `result` dict as initialised at the top of `parse_line`. -/
def initEvent (line : String) : Event :=
  { raw := line, info := none, progress := none, speed := none, eta := none }

/-- Python truthiness of `not result["progress"]`: `None` and `0.0` both
count as "no progress recorded yet on this line". -/
def progressUnset : Option ℚ → Bool
  | none => true
  | some q => decide (q = 0)

/-- The speed/eta block shared verbatim by patterns 2, 3, 4, 5, 7 and 8:
given `current` and `total` (with `self.uploaded_articles` already updated),
when `if self.start_time:` is truthy (a start time exists — and, by Python
truthiness, a recorded `0.0` counts as unset) and elapsed time is positive,
it records `progress = current/total`, `speed = current/elapsed` and
`eta = int(remaining/speed)` (0 when speed is 0). -/
def progressUpdate (now : ℚ) (current total : ℕ) (st : ParserState) (r : Event) : Event :=
  match st.start_time with
  | none => r
  | some t0 =>
    if t0 = 0 then r
    else
      let elapsed := now - t0
      if 0 < elapsed then
        let speed : ℚ := (current : ℚ) / elapsed
        let etaSec : ℚ := if 0 < speed then ((total : ℚ) - (current : ℚ)) / speed else 0
        { r with progress := some ((current : ℚ) / (total : ℚ)),
                 speed := some speed,
                 eta := some (pyInt etaSec) }
      else r

/-- Pattern 1: totals announcement.  Records totals, starts the timer,
emits the info message. -/
def step1 (now : ℚ) (l : Chars) (p : ParserState × Event) : ParserState × Event :=
  match p1 l with
  | none => p
  | some (n, sz) =>
    ({ p.1 with total_articles := some n, total_size := some sz, start_time := some now },
     { p.2 with info := some (.totals n sz) })

/-- Pattern 2: `Uploaded X/Y articles`. -/
def step2 (now : ℚ) (l : Chars) (p : ParserState × Event) : ParserState × Event :=
  match p2 l with
  | none => p
  | some (n, total) =>
    let st := { p.1 with uploaded_articles := n }
    if 0 < total then (st, progressUpdate now n total st p.2) else (st, p.2)

/-- Pattern 3: `X/Y ... articles` / `X of Y ... articles` (case-insensitive). -/
def step3 (now : ℚ) (l : Chars) (p : ParserState × Event) : ParserState × Event :=
  match p3 (lowerChars l) with
  | none => p
  | some (a, b) =>
    if progressUnset p.2.progress then
      if 0 < b then
        let st := { p.1 with uploaded_articles := a, total_articles := some b }
        (st, progressUpdate now a b st p.2)
      else p
    else p

/-- Pattern 4: `article X of Y` (case-insensitive). -/
def step4 (now : ℚ) (l : Chars) (p : ParserState × Event) : ParserState × Event :=
  match p4 (lowerChars l) with
  | none => p
  | some (a, b) =>
    if progressUnset p.2.progress then
      if 0 < b then
        let st := { p.1 with uploaded_articles := a, total_articles := some b }
        (st, progressUpdate now a b st p.2)
      else p
    else p

/-- Pattern 5: bare `X/Y`, guarded by the size keywords and by the
`total < 10000` sanity ceiling. -/
def step5 (now : ℚ) (l : Chars) (p : ParserState × Event) : ParserState × Event :=
  match p5 l with
  | none => p
  | some (a, b) =>
    if progressUnset p.2.progress && !hasSizeKeyword l then
      if 0 < b ∧ b < 10000 then
        let st := { p.1 with uploaded_articles := a, total_articles := some b }
        (st, progressUpdate now a b st p.2)
      else p
    else p

/-- Pattern 6: bare percentage (its `if self.start_time:` has the same
Python truthiness as `progressUpdate`: a recorded `0.0` counts as unset). -/
def step6 (now : ℚ) (l : Chars) (p : ParserState × Event) : ParserState × Event :=
  match p6 l with
  | none => p
  | some v =>
    if progressUnset p.2.progress then
      let percent := v / 100
      if 0 ≤ percent ∧ percent ≤ 1 then
        let r := { p.2 with progress := some percent }
        match p.1.start_time with
        | none => (p.1, r)
        | some t0 =>
          if t0 = 0 then (p.1, r)
          else
            let elapsed := now - t0
            if 0 < elapsed ∧ 0 < percent then
              let sp := percent / elapsed
              let etaSec : ℚ := if 0 < sp then (1 - percent) / sp else 0
              (p.1, { r with speed := some (sp * 100), eta := some (pyInt etaSec) })
            else (p.1, r)
      else p
    else p

/-- Pattern 7: monotonic `X articles sent` counter, guarded by the truthiness
of `self.total_articles` (absent, and zero, both disable it). -/
def step7 (now : ℚ) (l : Chars) (p : ParserState × Event) : ParserState × Event :=
  match p7 (lowerChars l) with
  | none => p
  | some sent =>
    match p.1.total_articles with
    | none => p
    | some T =>
      if T = 0 then p
      else if p.1.uploaded_articles < sent then
        let st := { p.1 with uploaded_articles := sent }
        (st, progressUpdate now sent T st p.2)
      else p

/-- Pattern 8: `sending X/Y` / `transfer X/Y` (case-insensitive). -/
def step8 (now : ℚ) (l : Chars) (p : ParserState × Event) : ParserState × Event :=
  match p8 (lowerChars l) with
  | none => p
  | some (a, b) =>
    if progressUnset p.2.progress then
      if 0 < b then
        let st := { p.1 with uploaded_articles := a, total_articles := some b }
        (st, progressUpdate now a b st p.2)
      else p
    else p

/-- Pattern 9: completion announcement.  `float()` of either captured group
can raise `ValueError` (the group class `[\d.]+` admits malformed numbers);
a raise is modelled by a `none` event, with the state as mutated up to the
raising statement. -/
def step9 (l : Chars) (p : ParserState × Event) : ParserState × Option Event :=
  match p9 l with
  | none => (p.1, some p.2)
  | some (g1, g2) =>
    match pyFloat? g1 with
    | none => (p.1, none)
    | some sz =>
      let st := { p.1 with uploaded_size := sz }
      match pyFloat? g2 with
      | none => (st, none)
      | some sp =>
        (st, some { p.2 with info := some (.finished sz sp), progress := some 1 })

/-- Patterns 1 through 8 in order. -/
def steps18 (now : ℚ) (l : Chars) (p : ParserState × Event) : ParserState × Event :=
  step8 now l (step7 now l (step6 now l (step5 now l
    (step4 now l (step3 now l (step2 now l (step1 now l p)))))))

/-- The trailing `self.lines_processed += 1; return result` (skipped when an
exception propagates out of pattern 9). -/
def finalize : ParserState × Option Event → ParserState × Option Event
  | (st, none) => (st, none)
  | (st, some r) => ({ st with lines_processed := st.lines_processed + 1 }, some r)

/-- `UploadProgressParser.parse_line` of `src/main.py`: the nine patterns in
order, then the line counter.  `now` is the value every `time.time()` call
inside this invocation returns.  A `none` event models a raised exception. -/
def parse_line (st : ParserState) (now : ℚ) (line : String) : ParserState × Option Event :=
  finalize (step9 line.data (steps18 now line.data (st, initEvent line)))

end UPP

namespace Upa

/-- Abstract filesystem: the set of existing regular-file paths and the set
of existing directory paths. -/
structure FS where
  files : List String
  dirs : List String
deriving DecidableEq, Repr

/-- `os.path.exists` / `Path.exists`. -/
def FS.pathExists (fs : FS) (p : String) : Bool :=
  fs.files.contains p || fs.dirs.contains p

/-- `Path.is_dir`. -/
def FS.isDir (fs : FS) (p : String) : Bool := fs.dirs.contains p

/-- `os.remove` of a regular file. -/
def FS.removeFile (fs : FS) (p : String) : FS :=
  { fs with files := fs.files.filter (fun q => !(q == p)) }

/-- `open(path, "w")` creating a regular file. -/
def FS.addFile (fs : FS) (p : String) : FS :=
  if fs.files.contains p then fs else { fs with files := p :: fs.files }

/-- The orchestrator configuration (the CLI flags and arguments as stored by
`UpaPastaOrchestrator.__init__`; `folder_path` is kept as parent and name so
the derived artifact paths can be written down). -/
structure Config where
  folderParent : String
  folderName : String
  dryRun : Bool := false
  redundancy : ℕ := 15
  postSize : String := "20M"
  subject : Option String := none
  group : Option String := none
  skipRar : Bool := false
  skipPar : Bool := false
  skipUpload : Bool := false
  force : Bool := false
  envFile : String := ".env"
  keepFiles : Bool := false
  backend : String := "parpar"
deriving DecidableEq, Repr

/-- `self.folder_path`. -/
def folderPath (cfg : Config) : String := cfg.folderParent ++ "/" ++ cfg.folderName

/-- The derived archive path `<parent>/<folder-name>.rar`. -/
def rarPath (cfg : Config) : String := cfg.folderParent ++ "/" ++ cfg.folderName ++ ".rar"

/-- Suffix-strip helper for `os.path.splitext`: `some rest` when `l` ends in
`suf`, with `rest` the part before it. -/
def stripSuffix? (suf l : UPP.Chars) : Option UPP.Chars :=
  (UPP.dropLit suf.reverse l.reverse).map List.reverse

/-- `os.path.splitext(p)[0]`: everything before the last dot of the final
path component, where the leading dots of that component never start an
extension. -/
def splitextBase (p : String) : String :=
  let cs := p.data
  let bn := (cs.reverse.takeWhile (fun c => !(c == '/'))).reverse
  if (bn.dropWhile (fun c => c == '.')).any (fun c => c == '.') then
    String.mk (cs.take (cs.length - ((cs.reverse.takeWhile (fun c => !(c == '.'))).length + 1)))
  else p

/-- The world a run starts from: the filesystem, plus the key/value pairs
`load_env_file` would parse out of the env file when it exists. -/
structure World where
  fs : FS
  envVars : List (String × String)
deriving DecidableEq, Repr

/-- `load_env_file`: the parsed pairs when the env file exists, `{}`
otherwise. -/
def load_env_file (w : World) (env_path : String) : List (String × String) :=
  if w.fs.pathExists env_path then w.envVars else []

/-- `dict.get`. -/
def lookupKV (kvs : List (String × String)) (k : String) : Option String :=
  (kvs.find? (fun kv => kv.1 == k)).map (fun kv => kv.2)

/-- Python truthiness of `env_vars.get(key)`: missing key and empty string
are both falsy. -/
def strOptTruthy : Option String → Bool
  | none => false
  | some s => !(s == "")

/-- The required credential keys of `check_or_prompt_credentials`. -/
def requiredKeys : List String :=
  ["NNTP_HOST", "NNTP_PORT", "NNTP_USER", "NNTP_PASS", "USENET_GROUP"]

/-- What the user answers at the interactive credential prompt. -/
structure PromptAnswers where
  host : String
  port : String
  user : String
  pass2 : String
  group : String
deriving DecidableEq, Repr

/-- `prompt_for_credentials`: the five prompted values plus the three
hardcoded defaults (the function also writes them to the env file — that
write is accounted for by the caller model). -/
def prompt_for_credentials (pa : PromptAnswers) : List (String × String) :=
  [("NNTP_HOST", pa.host), ("NNTP_PORT", pa.port), ("NNTP_USER", pa.user),
   ("NNTP_PASS", pa.pass2), ("USENET_GROUP", pa.group),
   ("NNTP_SSL", "true"), ("NNTP_CONNECTIONS", "50"), ("ARTICLE_SIZE", "700K")]

/-- `check_or_prompt_credentials`: returns the credentials together with
whether the interactive prompt ran (in which case the env file was
written). -/
def check_or_prompt_credentials (w : World) (env_file : String) (pa : PromptAnswers) :
    List (String × String) × Bool :=
  let env_vars := load_env_file w env_file
  let missing := requiredKeys.any (fun k => !(strOptTruthy (lookupKV env_vars k)))
  let defHost := lookupKV env_vars "NNTP_HOST" == some "news.example.com"
  let defUser := lookupKV env_vars "NNTP_USER" == some "seu_usuario"
  if missing || defHost || defUser then (prompt_for_credentials pa, true)
  else (env_vars, false)

/-- Effect counters accumulated along a run: env-file writes, file
deletions, and invocations of each external collaborator. -/
structure Eff where
  envWrites : ℕ := 0
  deletions : ℕ := 0
  rarCalls : ℕ := 0
  parCalls : ℕ := 0
  uploadCalls : ℕ := 0
deriving DecidableEq, Repr

/-- The orchestrator's mutable state during `run`. -/
structure OState where
  fs : FS
  rarFile : Option String := none
  parFile : Option String := none
  eff : Eff := {}
deriving DecidableEq, Repr

/-- Behaviour of one invocation of an external collaborator (`make_rar`,
`make_parity`, `upload_to_usenet`): its filesystem effect, whether it raised,
and otherwise its return code.  The spec treats these tools as opaque
external collaborators, so a run is parameterised by them. -/
structure ToolRun where
  newFs : FS → FS := id
  raises : Bool := false
  rc : ℤ := 0

/-- How a stage method ended; mirrors the distinct print/return branches of
the Python methods (which all collapse to a bool return value). -/
inductive StageOutcome where
  | usedExisting
  | skipMissing
  | dryPlanned
  | completed
  | artifactMissing
  | toolFailed (rc : ℤ)
  | raised
  | noInput
deriving DecidableEq, Repr

/-- The bool the Python method returns for each branch. -/
def StageOutcome.success : StageOutcome → Bool
  | .usedExisting | .dryPlanned | .completed => true
  | _ => false

/-- `UpaPastaOrchestrator.run_makerar`. -/
def run_makerar (cfg : Config) (tool : ToolRun) (s : OState) : StageOutcome × OState :=
  if cfg.skipRar then
    let potential := rarPath cfg
    if s.fs.pathExists potential then (.usedExisting, { s with rarFile := some potential })
    else (.skipMissing, s)
  else if cfg.dryRun then
    (.dryPlanned, { s with rarFile := some (rarPath cfg) })
  else
    let s1 := { s with fs := tool.newFs s.fs,
                       eff := { s.eff with rarCalls := s.eff.rarCalls + 1 } }
    if tool.raises then (.raised, s1)
    else if tool.rc == 0 then
      let s2 := { s1 with rarFile := some (rarPath cfg) }
      if s2.fs.pathExists (rarPath cfg) then (.completed, s2)
      else (.artifactMissing, s2)
    else (.toolFailed tool.rc, s1)

/-- The derived parity base path `<archive-base>.par2`. -/
def parPathOf (rar : String) : String := splitextBase rar ++ ".par2"

/-- `UpaPastaOrchestrator.run_makepar`. -/
def run_makepar (cfg : Config) (tool : ToolRun) (s : OState) : StageOutcome × OState :=
  if !(strOptTruthy s.rarFile) then (.noInput, s)
  else
    let rar := s.rarFile.getD ""
    if cfg.skipPar then
      let parP := parPathOf rar
      if s.fs.pathExists parP then (.usedExisting, { s with parFile := some parP })
      else (.skipMissing, s)
    else if cfg.dryRun then
      (.dryPlanned, { s with parFile := some (parPathOf rar) })
    else
      let s1 := { s with fs := tool.newFs s.fs,
                         eff := { s.eff with parCalls := s.eff.parCalls + 1 } }
      if tool.raises then (.raised, s1)
      else if tool.rc == 0 then
        let s2 := { s1 with parFile := some (parPathOf rar) }
        if s2.fs.pathExists (parPathOf rar) then (.completed, s2)
        else (.artifactMissing, s2)
      else (.toolFailed tool.rc, s1)

/-- `UpaPastaOrchestrator.run_upload` (the `src/upapasta/main.py` variant:
dry-run returns before anything else once a rar file is recorded; no output
artifact is expected from the uploader). -/
def run_upload (cfg : Config) (tool : ToolRun) (s : OState) : StageOutcome × OState :=
  if !(strOptTruthy s.rarFile) then (.noInput, s)
  else if cfg.dryRun then (.dryPlanned, s)
  else
    let s1 := { s with fs := tool.newFs s.fs,
                       eff := { s.eff with uploadCalls := s.eff.uploadCalls + 1 } }
    if tool.raises then (.raised, s1)
    else if tool.rc == 0 then (.completed, s1)
    else (.toolFailed tool.rc, s1)

/-- Does `p` match the glob pattern `<base>.vol*.par2` (glob `*` matches any
run of characters of one path component)? -/
def volMatch (base : String) (p : String) : Bool :=
  match UPP.dropLit (base ++ ".vol").data p.data with
  | none => false
  | some rest =>
    match stripSuffix? ".par2".data rest with
    | none => false
    | some mid => mid.all (fun c => !(c == '/'))

/-- The `files_to_delete` list `cleanup` builds: the rar file and the par
file when they exist, then every filesystem entry matching the parity-volume
glob (Python truthiness of `self.rar_file` / `self.par_file` included). -/
def cleanupTargets (s : OState) : List String :=
  (match s.rarFile with
   | some r => if !(r == "") && s.fs.pathExists r then [r] else []
   | none => []) ++
  (match s.parFile with
   | some pf => if !(pf == "") && s.fs.pathExists pf then [pf] else []
   | none => []) ++
  (match s.rarFile with
   | some r => if !(r == "") then (s.fs.files ++ s.fs.dirs).filter (volMatch (splitextBase r))
               else []
   | none => [])

/-- The deletion loop of `cleanup`: each path is removed (and counted) when
it exists as a regular file; a path that exists only as a directory makes
`os.remove` raise, which is caught per-file and leaves everything
unchanged. -/
def deleteAll : List String → FS → FS × ℕ
  | [], fs => (fs, 0)
  | p :: ps, fs =>
    if fs.files.contains p then
      let r := deleteAll ps (fs.removeFile p)
      (r.1, r.2 + 1)
    else deleteAll ps fs

/-- `UpaPastaOrchestrator.cleanup`. -/
def cleanup (cfg : Config) (s : OState) : OState :=
  if cfg.keepFiles then s
  else
    let r := deleteAll (cleanupTargets s) s.fs
    { s with fs := r.1, eff := { s.eff with deletions := s.eff.deletions + r.2 } }

/-- `UpaPastaOrchestrator.validate`: the folder must exist and be a
directory. -/
def validate (cfg : Config) (fs : FS) : Bool :=
  fs.pathExists (folderPath cfg) && fs.isDir (folderPath cfg)

/-- The stage sequence of `run` after the credential step: validation, the
three stages with their exit codes, and the post-upload cleanup. -/
def stagesPart (cfg : Config) (rarT parT upT : ToolRun) (s1 : OState) : ℕ × OState :=
  if !(validate cfg s1.fs) then (1, s1)
  else
    let r1 := run_makerar cfg rarT s1
    if !r1.1.success then (1, r1.2)
    else
      let r2 := run_makepar cfg parT r1.2
      if !r2.1.success then (2, r2.2)
      else if !cfg.skipUpload then
        let r3 := run_upload cfg upT r2.2
        if !r3.1.success then (3, r3.2)
        else (0, cleanup cfg r3.2)
      else (0, r2.2)

/-- `UpaPastaOrchestrator.run` of `src/upapasta/main.py`: resolve
credentials first when upload is not skipped (prompting writes the env
file), then validate and drive the stages.  Returns the process exit code
and the final state with its effect counters.  The summary printing and the
timing/size statistics are elided (they do not change the exit code or any
filesystem effect). -/
def run (cfg : Config) (w : World) (pa : PromptAnswers)
    (rarT parT upT : ToolRun) : ℕ × OState :=
  let s0 : OState := { fs := w.fs }
  if cfg.skipUpload then stagesPart cfg rarT parT upT s0
  else
    let cred := check_or_prompt_credentials w cfg.envFile pa
    let s1 := if cred.2 then
                { s0 with fs := s0.fs.addFile cfg.envFile,
                          eff := { s0.eff with envWrites := s0.eff.envWrites + 1 } }
              else s0
    if cred.1.isEmpty then (3, s1)
    else stagesPart cfg rarT parT upT s1

end Upa

namespace MPy

/-- An external child process, abstracted to whether it ever terminates, how
long it runs when it does, and its exit code. -/
structure Child where
  terminates : Bool
  duration : ℚ
  rc : ℤ
deriving DecidableEq, Repr

/-- How waiting on a child ends. -/
inductive WaitOutcome where
  | completed (rc : ℤ)
  | timedOut
  | hangs
deriving DecidableEq, Repr

/-- Waiting on a child under an optional wall-clock timeout:
`subprocess.run(..., timeout=t)` raises `TimeoutExpired` when the child is
still running after `t` seconds; waiting without a timeout
(`Popen.wait()`) on a child that never terminates hangs forever. -/
def waitOn : Option ℚ → Child → WaitOutcome
  | some t, c => if c.terminates && decide (c.duration ≤ t) then .completed c.rc else .timedOut
  | none, c => if c.terminates then .completed c.rc else .hangs

/-- The timeout the archive and parity stages of `src/main.py` pass to
`subprocess.run` — the literal `3600`, not a configurable value. -/
def stageTimeout : Option ℚ := some 3600

/-- How the execution branch of a stage method ends. -/
inductive ExecResult where
  | ok
  | artifactMissing
  | toolFailed (rc : ℤ)
  | timedOutFailure
deriving DecidableEq, Repr

/-- The execution branch of `UpaPastaOrchestrator.run_makerar` in
`src/main.py`: `subprocess.run(cmd, ..., timeout=3600)`; on exit code 0 the
archive must exist afterwards (`artifactAfter`); `TimeoutExpired` is caught
by the `except Exception` handler and the stage returns failure. -/
def run_makerar_exec (c : Child) (artifactAfter : Bool) : ExecResult :=
  match waitOn stageTimeout c with
  | .completed rc =>
    if rc == 0 then (if artifactAfter then .ok else .artifactMissing)
    else .toolFailed rc
  | _ => .timedOutFailure

/-- The execution branch of `UpaPastaOrchestrator.run_makepar` in
`src/main.py` (same supervision shape as the archive stage). -/
def run_makepar_exec (c : Child) (artifactAfter : Bool) : ExecResult :=
  match waitOn stageTimeout c with
  | .completed rc =>
    if rc == 0 then (if artifactAfter then .ok else .artifactMissing)
    else .toolFailed rc
  | _ => .timedOutFailure

/-- The wait of `UpaPastaOrchestrator.run_upload` in `src/main.py`: after
draining the pipe, `proc.wait()` with no timeout. -/
def run_upload_wait (c : Child) : WaitOutcome := waitOn none c

/-- The wait at the end of `run_command_with_pty` in
`src/src/upapasta/main.py`: `process.wait()` with no timeout. -/
def pty_wait (c : Child) : WaitOutcome := waitOn none c

end MPy

/-! ## Claim C1 -/

/-- Concrete configuration for a dry run: valid folder, no skips, cleanup
enabled (`--keep-files` absent). -/
def c1cfg : Upa.Config := { folderParent := "/home", folderName := "fotos", dryRun := true }

/-- A world with a valid input folder, a pre-existing archive at the derived
path, and a fully configured env file. -/
def c1world : Upa.World :=
  { fs := { files := ["/home/fotos.rar", ".env"], dirs := ["/home/fotos"] },
    envVars := [("NNTP_HOST", "news.real.com"), ("NNTP_PORT", "563"), ("NNTP_USER", "u"),
                ("NNTP_PASS", "p"), ("USENET_GROUP", "a.b.t")] }

/-- A world with a valid input folder and no env file at all. -/
def c1worldNoEnv : Upa.World :=
  { fs := { files := [], dirs := ["/home/fotos"] }, envVars := [] }

/-- Claim C1: a `--dry-run` on a valid input folder is claimed to perform
zero filesystem writes and zero deletions while exiting 0.  The code
violates this: on this valid input (with an archive already sitting at the
derived path) a dry run exits 0 yet deletes one file — the pre-existing
archive — because `run` still invokes `cleanup` after the simulated upload;
and when the env file is absent, the credential prompt runs and writes the
env file even under `--dry-run`.  This theorem evaluates the code at those
failing inputs. -/
theorem dry_run_performs_deletions_and_writes :
    (Upa.run c1cfg c1world ⟨"", "", "", "", ""⟩ {} {} {}).1 = 0 ∧
    (Upa.run c1cfg c1world ⟨"", "", "", "", ""⟩ {} {} {}).2.eff.deletions = 1 ∧
    (Upa.run c1cfg c1world ⟨"", "", "", "", ""⟩ {} {} {}).2.fs.files = [".env"] ∧
    (Upa.run c1cfg c1worldNoEnv ⟨"h", "563", "u", "p", "g"⟩ {} {} {}).1 = 0 ∧
    (Upa.run c1cfg c1worldNoEnv ⟨"h", "563", "u", "p", "g"⟩ {} {} {}).2.eff.envWrites = 1 := by
  refine ⟨by decide, by decide, by decide, by decide, by decide⟩

/-! ## Claim C5 -/

/-- Claim C5 counterexample: the upload stage of `src/main.py` waits on its
child with `proc.wait()` and no timeout, and `run_command_with_pty` of
`src/src/upapasta/main.py` likewise — a child that never terminates hangs
the run forever, so it is false that every stage's child is subject to a
wall-clock timeout. -/
theorem upload_and_pty_wait_hang :
    MPy.run_upload_wait { terminates := false, duration := 0, rc := 0 } = .hangs ∧
    MPy.pty_wait { terminates := false, duration := 0, rc := 0 } = .hangs := by
  decide

/-- Claim C5 (amended): only the archive and parity stages of `src/main.py`
run their child under a wall-clock timeout, and it is the fixed literal 3600
seconds rather than a configurable value; a child that hangs or runs past
3600 seconds makes those stages report a timeout failure instead of
hanging.  (The upload stage and the pty runner have no timeout at all — see
the counterexample.) -/
theorem fixed_timeout_archive_parity_stages (c : MPy.Child) (a : Bool)
    (h : c.terminates = false ∨ 3600 < c.duration) :
    MPy.run_makerar_exec c a = .timedOutFailure ∧
    MPy.run_makepar_exec c a = .timedOutFailure ∧
    MPy.stageTimeout = some 3600 := by
  have hw : MPy.waitOn MPy.stageTimeout c = .timedOut := by
    rcases h with h | h
    · simp [MPy.waitOn, MPy.stageTimeout, h]
    · simp [MPy.waitOn, MPy.stageTimeout, not_le.mpr h]
  exact ⟨by simp [MPy.run_makerar_exec, hw], by simp [MPy.run_makepar_exec, hw], rfl⟩

/-- Witness for the amended C5 theorem at a child that terminates only after
two hours. -/
theorem fixed_timeout_archive_parity_stages_witness :
    MPy.run_makerar_exec { terminates := true, duration := 7200, rc := 0 } true
      = .timedOutFailure ∧
    MPy.run_makepar_exec { terminates := true, duration := 7200, rc := 0 } true
      = .timedOutFailure ∧
    MPy.stageTimeout = some 3600 :=
  fixed_timeout_archive_parity_stages
    { terminates := true, duration := 7200, rc := 0 } true (Or.inr (by norm_num))

/-! ## Claim C7 -/

/-- Claim C7: in `run_makerar` and `run_makepar`, when the external tool is
actually executed (no skip, no dry-run), returns exit code 0, and the
expected artifact does not exist afterwards, the stage ends in the distinct
`artifactMissing` branch and reports failure, never success. -/
theorem tool_ok_artifact_missing_is_failure
    (cfg cfg2 : Upa.Config) (s s2 : Upa.OState) (t t2 : Upa.ToolRun)
    (hskip : cfg.skipRar = false) (hdry : cfg.dryRun = false)
    (hr : t.raises = false) (hrc : t.rc = 0)
    (hmiss : (t.newFs s.fs).pathExists (Upa.rarPath cfg) = false)
    (hrar2 : Upa.strOptTruthy s2.rarFile = true)
    (hskip2 : cfg2.skipPar = false) (hdry2 : cfg2.dryRun = false)
    (hr2 : t2.raises = false) (hrc2 : t2.rc = 0)
    (hmiss2 : (t2.newFs s2.fs).pathExists (Upa.parPathOf (s2.rarFile.getD "")) = false) :
    (Upa.run_makerar cfg t s).1 = .artifactMissing ∧
    ((Upa.run_makerar cfg t s).1).success = false ∧
    (Upa.run_makepar cfg2 t2 s2).1 = .artifactMissing ∧
    ((Upa.run_makepar cfg2 t2 s2).1).success = false := by
  have h1 : (Upa.run_makerar cfg t s).1 = .artifactMissing := by
    simp [Upa.run_makerar, hskip, hdry, hr, hrc, hmiss]
  have h2 : (Upa.run_makepar cfg2 t2 s2).1 = .artifactMissing := by
    simp [Upa.run_makepar, hrar2, hskip2, hdry2, hr2, hrc2, hmiss2]
  exact ⟨h1, by rw [h1]; rfl, h2, by rw [h2]; rfl⟩

/-- Witness for C7: tools that exit 0 but leave the filesystem untouched and
empty. -/
theorem tool_ok_artifact_missing_is_failure_witness :
    (Upa.run_makerar { folderParent := "/h", folderName := "f" } {}
        { fs := { files := [], dirs := [] } }).1 = .artifactMissing ∧
    ((Upa.run_makerar { folderParent := "/h", folderName := "f" } {}
        { fs := { files := [], dirs := [] } }).1).success = false ∧
    (Upa.run_makepar { folderParent := "/h", folderName := "f" } {}
        { fs := { files := [], dirs := [] }, rarFile := some "/h/f.rar" }).1 = .artifactMissing ∧
    ((Upa.run_makepar { folderParent := "/h", folderName := "f" } {}
        { fs := { files := [], dirs := [] }, rarFile := some "/h/f.rar" }).1).success = false :=
  tool_ok_artifact_missing_is_failure
    { folderParent := "/h", folderName := "f" } { folderParent := "/h", folderName := "f" }
    { fs := { files := [], dirs := [] } }
    { fs := { files := [], dirs := [] }, rarFile := some "/h/f.rar" }
    {} {} rfl rfl rfl rfl (by decide) (by decide) rfl rfl rfl rfl (by decide)

/-! ## Parser step lemmas -/

/-- `progressUpdate` never touches the raw line of the event. -/
theorem progressUpdate_raw (now : ℚ) (c t : ℕ) (st : UPP.ParserState) (r : UPP.Event) :
    (UPP.progressUpdate now c t st r).raw = r.raw := by
  unfold UPP.progressUpdate
  cases st.start_time
  · rfl
  · dsimp only
    split
    · rfl
    · split <;> rfl

/-- Patterns 1–8 preserve the raw line and the line counter. -/
theorem step1_pres (now : ℚ) (l : UPP.Chars) (p : UPP.ParserState × UPP.Event) :
    (UPP.step1 now l p).2.raw = p.2.raw ∧
    (UPP.step1 now l p).1.lines_processed = p.1.lines_processed := by
  unfold UPP.step1
  cases UPP.p1 l with
  | none => exact ⟨rfl, rfl⟩
  | some v => exact ⟨rfl, rfl⟩

theorem step2_pres (now : ℚ) (l : UPP.Chars) (p : UPP.ParserState × UPP.Event) :
    (UPP.step2 now l p).2.raw = p.2.raw ∧
    (UPP.step2 now l p).1.lines_processed = p.1.lines_processed := by
  unfold UPP.step2
  cases UPP.p2 l with
  | none => exact ⟨rfl, rfl⟩
  | some v =>
    dsimp only
    split
    · exact ⟨progressUpdate_raw .., rfl⟩
    · exact ⟨rfl, rfl⟩

theorem step3_pres (now : ℚ) (l : UPP.Chars) (p : UPP.ParserState × UPP.Event) :
    (UPP.step3 now l p).2.raw = p.2.raw ∧
    (UPP.step3 now l p).1.lines_processed = p.1.lines_processed := by
  unfold UPP.step3
  cases UPP.p3 (UPP.lowerChars l) with
  | none => exact ⟨rfl, rfl⟩
  | some v =>
    dsimp only
    split
    · split
      · exact ⟨progressUpdate_raw .., rfl⟩
      · exact ⟨rfl, rfl⟩
    · exact ⟨rfl, rfl⟩

theorem step4_pres (now : ℚ) (l : UPP.Chars) (p : UPP.ParserState × UPP.Event) :
    (UPP.step4 now l p).2.raw = p.2.raw ∧
    (UPP.step4 now l p).1.lines_processed = p.1.lines_processed := by
  unfold UPP.step4
  cases UPP.p4 (UPP.lowerChars l) with
  | none => exact ⟨rfl, rfl⟩
  | some v =>
    dsimp only
    split
    · split
      · exact ⟨progressUpdate_raw .., rfl⟩
      · exact ⟨rfl, rfl⟩
    · exact ⟨rfl, rfl⟩

theorem step5_pres (now : ℚ) (l : UPP.Chars) (p : UPP.ParserState × UPP.Event) :
    (UPP.step5 now l p).2.raw = p.2.raw ∧
    (UPP.step5 now l p).1.lines_processed = p.1.lines_processed := by
  unfold UPP.step5
  cases UPP.p5 l with
  | none => exact ⟨rfl, rfl⟩
  | some v =>
    dsimp only
    split
    · split
      · exact ⟨progressUpdate_raw .., rfl⟩
      · exact ⟨rfl, rfl⟩
    · exact ⟨rfl, rfl⟩

theorem step6_pres (now : ℚ) (l : UPP.Chars) (p : UPP.ParserState × UPP.Event) :
    (UPP.step6 now l p).2.raw = p.2.raw ∧
    (UPP.step6 now l p).1.lines_processed = p.1.lines_processed := by
  unfold UPP.step6
  cases UPP.p6 l with
  | none => exact ⟨rfl, rfl⟩
  | some v =>
    dsimp only
    split
    · split
      · cases p.1.start_time
        · exact ⟨rfl, rfl⟩
        · dsimp only
          split
          · exact ⟨rfl, rfl⟩
          · split
            · exact ⟨rfl, rfl⟩
            · exact ⟨rfl, rfl⟩
      · exact ⟨rfl, rfl⟩
    · exact ⟨rfl, rfl⟩

theorem step7_pres (now : ℚ) (l : UPP.Chars) (p : UPP.ParserState × UPP.Event) :
    (UPP.step7 now l p).2.raw = p.2.raw ∧
    (UPP.step7 now l p).1.lines_processed = p.1.lines_processed := by
  unfold UPP.step7
  cases UPP.p7 (UPP.lowerChars l) with
  | none => exact ⟨rfl, rfl⟩
  | some v =>
    dsimp only
    cases p.1.total_articles with
    | none => exact ⟨rfl, rfl⟩
    | some T =>
      dsimp only
      split
      · exact ⟨rfl, rfl⟩
      · split
        · exact ⟨progressUpdate_raw .., rfl⟩
        · exact ⟨rfl, rfl⟩

theorem step8_pres (now : ℚ) (l : UPP.Chars) (p : UPP.ParserState × UPP.Event) :
    (UPP.step8 now l p).2.raw = p.2.raw ∧
    (UPP.step8 now l p).1.lines_processed = p.1.lines_processed := by
  unfold UPP.step8
  cases UPP.p8 (UPP.lowerChars l) with
  | none => exact ⟨rfl, rfl⟩
  | some v =>
    dsimp only
    split
    · split
      · exact ⟨progressUpdate_raw .., rfl⟩
      · exact ⟨rfl, rfl⟩
    · exact ⟨rfl, rfl⟩

/-- The pattern 1–8 pipeline preserves the raw line and the line counter. -/
theorem steps18_pres (now : ℚ) (l : UPP.Chars) (p : UPP.ParserState × UPP.Event) :
    (UPP.steps18 now l p).2.raw = p.2.raw ∧
    (UPP.steps18 now l p).1.lines_processed = p.1.lines_processed := by
  unfold UPP.steps18
  have h1 := step1_pres now l p
  have h2 := step2_pres now l (UPP.step1 now l p)
  have h3 := step3_pres now l (UPP.step2 now l (UPP.step1 now l p))
  have h4 := step4_pres now l (UPP.step3 now l (UPP.step2 now l (UPP.step1 now l p)))
  have h5 := step5_pres now l
    (UPP.step4 now l (UPP.step3 now l (UPP.step2 now l (UPP.step1 now l p))))
  have h6 := step6_pres now l (UPP.step5 now l
    (UPP.step4 now l (UPP.step3 now l (UPP.step2 now l (UPP.step1 now l p)))))
  have h7 := step7_pres now l (UPP.step6 now l (UPP.step5 now l
    (UPP.step4 now l (UPP.step3 now l (UPP.step2 now l (UPP.step1 now l p))))))
  have h8 := step8_pres now l (UPP.step7 now l (UPP.step6 now l (UPP.step5 now l
    (UPP.step4 now l (UPP.step3 now l (UPP.step2 now l (UPP.step1 now l p)))))))
  exact ⟨by rw [h8.1, h7.1, h6.1, h5.1, h4.1, h3.1, h2.1, h1.1],
         by rw [h8.2, h7.2, h6.2, h5.2, h4.2, h3.2, h2.2, h1.2]⟩

/-- Pattern 9 preserves the line counter in the state it returns, and (when
it does not raise) the raw line of the event. -/
theorem step9_pres (l : UPP.Chars) (p : UPP.ParserState × UPP.Event) :
    (UPP.step9 l p).1.lines_processed = p.1.lines_processed ∧
    ∀ e, (UPP.step9 l p).2 = some e → e.raw = p.2.raw := by
  unfold UPP.step9
  cases UPP.p9 l with
  | none =>
    exact ⟨rfl, by intro e he; cases he; rfl⟩
  | some v =>
    dsimp only
    cases UPP.pyFloat? v.1 with
    | none => exact ⟨rfl, by intro e he; cases he⟩
    | some sz =>
      dsimp only
      cases UPP.pyFloat? v.2 with
      | none => exact ⟨rfl, by intro e he; cases he⟩
      | some sp => exact ⟨rfl, by intro e he; cases he; rfl⟩

/-! ## Claim C10 -/

/-- Claim C10 counterexample: on the line
`Finished uploading 1..2 MiB (3.0 MiB/s)` the completion pattern matches
with the malformed capture `1..2`, `float()` raises, `parse_line` returns no
event at all, and `lines_processed` is not incremented — so it is false that
every call returns an event and bumps the counter by one. -/
theorem parse_line_skips_counter_on_raise :
    (UPP.parse_line UPP.pInit 0 "Finished uploading 1..2 MiB (3.0 MiB/s)").2 = none ∧
    (UPP.parse_line UPP.pInit 0 "Finished uploading 1..2 MiB (3.0 MiB/s)").1.lines_processed
      = UPP.pInit.lines_processed := by
  exact ⟨by decide, by decide⟩

/-- Claim C10 (amended): `lines_processed` never decreases across a call,
and on every call that returns normally (does not raise) the event's `raw`
field is the input line and `lines_processed` grows by exactly one. -/
theorem parse_line_raw_and_counter (st : UPP.ParserState) (now : ℚ) (line : String) :
    st.lines_processed ≤ (UPP.parse_line st now line).1.lines_processed ∧
    ∀ e, (UPP.parse_line st now line).2 = some e →
      e.raw = line ∧
      (UPP.parse_line st now line).1.lines_processed = st.lines_processed + 1 := by
  unfold UPP.parse_line
  have h18 := steps18_pres now line.data (st, UPP.initEvent line)
  have h9 := step9_pres line.data (UPP.steps18 now line.data (st, UPP.initEvent line))
  rcases hq : UPP.step9 line.data (UPP.steps18 now line.data (st, UPP.initEvent line))
    with ⟨st9, ev9⟩
  rw [hq] at h9
  have hlines : st9.lines_processed = st.lines_processed := by
    have := h9.1
    simp only at this
    rw [this, h18.2]
  cases ev9 with
  | none =>
    refine ⟨by simp [UPP.finalize, hlines], ?_⟩
    intro e he
    simp [UPP.finalize] at he
  | some e0 =>
    have hraw : e0.raw = line := by
      have := h9.2 e0 rfl
      rw [this, h18.1]
      rfl
    refine ⟨by simp [UPP.finalize, hlines], ?_⟩
    intro e he
    simp only [UPP.finalize, Option.some.injEq] at he
    subst he
    exact ⟨hraw, by simp [UPP.finalize, hlines]⟩

/-- Witness for the amended C10 theorem on a line that matches nothing. -/
theorem parse_line_raw_and_counter_witness :
    UPP.pInit.lines_processed ≤ (UPP.parse_line UPP.pInit 0 "abc").1.lines_processed ∧
    (UPP.parse_line UPP.pInit 0 "abc").1.lines_processed = UPP.pInit.lines_processed + 1 :=
  ⟨(parse_line_raw_and_counter UPP.pInit 0 "abc").1,
   ((parse_line_raw_and_counter UPP.pInit 0 "abc").2
      { raw := "abc", info := none, progress := none, speed := none, eta := none }
      (by decide)).2⟩

/-! ## Claim C4 -/

/-- Claim C4 counterexample: `parse_line` is claimed never to raise on any
input string, but on `Finished uploading 1.2.3 MiB (1.0 MiB/s)` the
completion pattern's `[\d.]+` group captures `1.2.3`, `float()` raises
`ValueError`, and no event is returned. -/
theorem parse_line_raise_on_malformed_completion :
    (UPP.parse_line UPP.pInit 0 "Finished uploading 1.2.3 MiB (1.0 MiB/s)").2 = none := by
  decide

/-- Claim C4 (amended): a line on which none of the nine recognized patterns
matches yields an event with the info, progress, speed and eta fields all
absent, and does not raise.  (`parse_line` can raise only on a line that
does match the completion pattern, with a malformed numeric capture — see
the counterexample.) -/
theorem unmatched_line_all_fields_absent (st : UPP.ParserState) (now : ℚ) (line : String)
    (h1 : UPP.p1 line.data = none) (h2 : UPP.p2 line.data = none)
    (h3 : UPP.p3 (UPP.lowerChars line.data) = none)
    (h4 : UPP.p4 (UPP.lowerChars line.data) = none)
    (h5 : UPP.p5 line.data = none) (h6 : UPP.p6 line.data = none)
    (h7 : UPP.p7 (UPP.lowerChars line.data) = none)
    (h8 : UPP.p8 (UPP.lowerChars line.data) = none)
    (h9 : UPP.p9 line.data = none) :
    (UPP.parse_line st now line).2 =
      some { raw := line, info := none, progress := none, speed := none, eta := none } := by
  unfold UPP.parse_line UPP.steps18
  rw [show UPP.step1 now line.data (st, UPP.initEvent line) = (st, UPP.initEvent line) by
        unfold UPP.step1; rw [h1]]
  rw [show UPP.step2 now line.data (st, UPP.initEvent line) = (st, UPP.initEvent line) by
        unfold UPP.step2; rw [h2]]
  rw [show UPP.step3 now line.data (st, UPP.initEvent line) = (st, UPP.initEvent line) by
        unfold UPP.step3; rw [h3]]
  rw [show UPP.step4 now line.data (st, UPP.initEvent line) = (st, UPP.initEvent line) by
        unfold UPP.step4; rw [h4]]
  rw [show UPP.step5 now line.data (st, UPP.initEvent line) = (st, UPP.initEvent line) by
        unfold UPP.step5; rw [h5]]
  rw [show UPP.step6 now line.data (st, UPP.initEvent line) = (st, UPP.initEvent line) by
        unfold UPP.step6; rw [h6]]
  rw [show UPP.step7 now line.data (st, UPP.initEvent line) = (st, UPP.initEvent line) by
        unfold UPP.step7; rw [h7]]
  rw [show UPP.step8 now line.data (st, UPP.initEvent line) = (st, UPP.initEvent line) by
        unfold UPP.step8; rw [h8]]
  unfold UPP.step9
  rw [h9]
  rfl

/-- Witness for the amended C4 theorem on the line `hello world`. -/
theorem unmatched_line_all_fields_absent_witness :
    (UPP.parse_line UPP.pInit 0 "hello world").2 =
      some { raw := "hello world", info := none, progress := none, speed := none,
             eta := none } :=
  unmatched_line_all_fields_absent UPP.pInit 0 "hello world"
    (by decide) (by decide) (by decide) (by decide) (by decide)
    (by decide) (by decide) (by decide) (by decide)

/-! ## Claim C3 -/

/-- Claim C3: on any parser state (in particular one with a recorded total
and a lower progress previously recorded) and any line the completion
pattern matches with well-formed numeric captures, `parse_line` returns an
event whose progress is exactly 1 and whose info is the completion
message — the completion rule runs last and overrides everything. -/
theorem completion_line_forces_progress_one (st : UPP.ParserState) (now : ℚ)
    (line : String) (g1 g2 : UPP.Chars) (a b : ℚ)
    (hm : UPP.p9 line.data = some (g1, g2))
    (ha : UPP.pyFloat? g1 = some a) (hb : UPP.pyFloat? g2 = some b) :
    (UPP.parse_line st now line).2.map UPP.Event.progress = some (some 1) ∧
    (UPP.parse_line st now line).2.map UPP.Event.info
      = some (some (UPP.Info.finished a b)) := by
  unfold UPP.parse_line UPP.step9
  rcases hq : UPP.steps18 now line.data (st, UPP.initEvent line) with ⟨st8, r8⟩
  simp only [hm, ha, hb, UPP.finalize]
  exact ⟨rfl, rfl⟩

/-- `float()` of a pure digit run is its numeric value. -/
theorem pyFloat_of_digits (cs : UPP.Chars)
    (h1 : ((cs.filter (fun c => c == '.')).length ≤ 1 && cs.any Char.isDigit) = true)
    (h2 : cs.takeWhile (fun c => !(c == '.')) = cs)
    (h3 : (cs.dropWhile (fun c => !(c == '.'))).drop 1 = []) :
    UPP.pyFloat? cs = some (UPP.digitsToNat cs : ℚ) := by
  simp only [UPP.pyFloat?, h1, if_true, h2, h3]
  simp [UPP.decValue, UPP.digitsToNat]

/-- Witness for C3: parser state with total 500 and 100 articles previously
recorded, on a concrete completion line. -/
theorem completion_line_forces_progress_one_witness :
    (UPP.parse_line
        { UPP.pInit with total_articles := some 500, uploaded_articles := 100,
                         start_time := some 0 } 300
        "Finished uploading 500 MiB in 00:05:00 (2 MiB/s)").2.map UPP.Event.progress
      = some (some 1) ∧
    (UPP.parse_line
        { UPP.pInit with total_articles := some 500, uploaded_articles := 100,
                         start_time := some 0 } 300
        "Finished uploading 500 MiB in 00:05:00 (2 MiB/s)").2.map UPP.Event.info
      = some (some (UPP.Info.finished 500 2)) :=
  completion_line_forces_progress_one
    { UPP.pInit with total_articles := some 500, uploaded_articles := 100,
                     start_time := some 0 } 300
    "Finished uploading 500 MiB in 00:05:00 (2 MiB/s)"
    "500".data "2".data 500 2 (by decide)
    (by rw [pyFloat_of_digits "500".data (by decide) (by decide) (by decide)]; norm_num
        rfl)
    (by rw [pyFloat_of_digits "2".data (by decide) (by decide) (by decide)]; norm_num
        rfl)

/-! ## Claim C2 -/

/-- Claim C2 counterexample: `3/10` is a valid progress fraction (3 ≤ 10,
10 > 0, no disqualifying keyword), yet on a fresh parser `parse_line`
returns an event with no progress at all — the bare-fraction rule only
computes progress once a totals announcement has started the internal
timer. -/
theorem bare_fraction_fresh_parser_no_progress :
    (UPP.parse_line UPP.pInit 0 "3/10").2 =
      some { raw := "3/10", info := none, progress := none, speed := none, eta := none } := by
  decide

/-- Claim C2 (amended): for a line whose only match is the bare `N/M`
fraction rule (patterns 1–4 and 6–9 do not match it), with no disqualifying
size keyword, N ≤ M, 0 < M below the 10000 sanity ceiling, and a parser
whose timer was started (at a nonzero instant — Python truthiness treats a
`0.0` start time as unset) strictly before `now`, the returned event's
progress is exactly N/M and its eta, which is then computed, is
non-negative. -/
theorem bare_fraction_progress_eta (st : UPP.ParserState) (now t0 : ℚ)
    (line : String) (N M : ℕ)
    (h1 : UPP.p1 line.data = none) (h2 : UPP.p2 line.data = none)
    (h3 : UPP.p3 (UPP.lowerChars line.data) = none)
    (h4 : UPP.p4 (UPP.lowerChars line.data) = none)
    (h5 : UPP.p5 line.data = some (N, M))
    (hkw : UPP.hasSizeKeyword line.data = false)
    (h6 : UPP.p6 line.data = none)
    (h7 : UPP.p7 (UPP.lowerChars line.data) = none)
    (h8 : UPP.p8 (UPP.lowerChars line.data) = none)
    (h9 : UPP.p9 line.data = none)
    (hNM : N ≤ M) (hM0 : 0 < M) (hM : M < 10000)
    (hst : st.start_time = some t0) (ht0 : t0 ≠ 0) (ht : t0 < now) :
    (UPP.parse_line st now line).2.map UPP.Event.progress
      = some (some ((N : ℚ) / (M : ℚ))) ∧
    ∀ e : ℤ, (UPP.parse_line st now line).2.map UPP.Event.eta = some (some e) → 0 ≤ e := by
  have hel : (0 : ℚ) < now - t0 := sub_pos.mpr ht
  have key : UPP.parse_line st now line =
      ({ st with uploaded_articles := N, total_articles := some M,
                 lines_processed := st.lines_processed + 1 },
       some { raw := line, info := none,
              progress := some ((N : ℚ) / (M : ℚ)),
              speed := some ((N : ℚ) / (now - t0)),
              eta := some (UPP.pyInt (if 0 < (N : ℚ) / (now - t0) then
                             ((M : ℚ) - (N : ℚ)) / ((N : ℚ) / (now - t0)) else 0)) }) := by
    unfold UPP.parse_line UPP.steps18
    rw [show UPP.step1 now line.data (st, UPP.initEvent line) = (st, UPP.initEvent line) by
          unfold UPP.step1; rw [h1]]
    rw [show UPP.step2 now line.data (st, UPP.initEvent line) = (st, UPP.initEvent line) by
          unfold UPP.step2; rw [h2]]
    rw [show UPP.step3 now line.data (st, UPP.initEvent line) = (st, UPP.initEvent line) by
          unfold UPP.step3; rw [h3]]
    rw [show UPP.step4 now line.data (st, UPP.initEvent line) = (st, UPP.initEvent line) by
          unfold UPP.step4; rw [h4]]
    have hstep5 : UPP.step5 now line.data (st, UPP.initEvent line) =
        ({ st with uploaded_articles := N, total_articles := some M },
         { UPP.initEvent line with
             progress := some ((N : ℚ) / (M : ℚ)),
             speed := some ((N : ℚ) / (now - t0)),
             eta := some (UPP.pyInt (if 0 < (N : ℚ) / (now - t0) then
                            ((M : ℚ) - (N : ℚ)) / ((N : ℚ) / (now - t0)) else 0)) }) := by
      unfold UPP.step5
      rw [h5]
      simp only [UPP.initEvent, UPP.progressUnset, hkw, Bool.not_false, Bool.and_true,
        if_pos (And.intro hM0 hM)]
      unfold UPP.progressUpdate
      simp only [hst, if_neg ht0, if_pos hel, if_true]
    rw [hstep5]
    rw [show ∀ q : UPP.ParserState × UPP.Event, UPP.p6 line.data = none →
          UPP.step6 now line.data q = q from fun q hq => by unfold UPP.step6; rw [hq]]
    rw [show ∀ q : UPP.ParserState × UPP.Event, UPP.p7 (UPP.lowerChars line.data) = none →
          UPP.step7 now line.data q = q from fun q hq => by unfold UPP.step7; rw [hq]]
    rw [show ∀ q : UPP.ParserState × UPP.Event, UPP.p8 (UPP.lowerChars line.data) = none →
          UPP.step8 now line.data q = q from fun q hq => by unfold UPP.step8; rw [hq]]
    unfold UPP.step9
    rw [h9]
    rfl
    repeat assumption
  constructor
  · rw [key]
    rfl
  · intro e he
    have he2 : (some (some (UPP.pyInt (if 0 < (N : ℚ) / (now - t0) then
        ((M : ℚ) - (N : ℚ)) / ((N : ℚ) / (now - t0)) else 0))) : Option (Option ℤ))
        = some (some e) := by
      rw [← he, key]
      rfl
    have heta : e = UPP.pyInt (if 0 < (N : ℚ) / (now - t0) then
        ((M : ℚ) - (N : ℚ)) / ((N : ℚ) / (now - t0)) else 0) :=
      (Option.some.inj (Option.some.inj he2)).symm
    have hsec : (0 : ℚ) ≤ (if 0 < (N : ℚ) / (now - t0) then
        ((M : ℚ) - (N : ℚ)) / ((N : ℚ) / (now - t0)) else 0) := by
      split
      · apply div_nonneg
        · have hc : (N : ℚ) ≤ (M : ℚ) := by exact_mod_cast hNM
          linarith
        · next h => exact le_of_lt h
      · exact le_refl 0
    rw [heta]
    unfold UPP.pyInt
    rw [if_pos hsec]
    exact Int.floor_nonneg.mpr hsec

/-- Witness for the amended C2 theorem: line `30/100` with a timer started
at 1, observed at time 6. -/
theorem bare_fraction_progress_eta_witness :
    (UPP.parse_line { UPP.pInit with start_time := some 1 } 6 "30/100").2.map
        UPP.Event.progress = some (some ((30 : ℚ) / (100 : ℚ))) :=
  (bare_fraction_progress_eta { UPP.pInit with start_time := some 1 } 6 1 "30/100" 30 100
    (by decide) (by decide) (by decide) (by decide) (by decide) (by decide) (by decide)
    (by decide) (by decide) (by decide) (by decide) (by decide) (by decide) rfl
    (by norm_num) (by norm_num)).1

/-! ## Orchestrator run lemmas -/

/-- `check_or_prompt_credentials` never yields an empty credential set: when
the env file is missing or incomplete it falls back to the interactive
prompt, whose result always carries eight entries. -/
theorem check_or_prompt_ne_nil (w : Upa.World) (f : String) (pa : Upa.PromptAnswers) :
    (Upa.check_or_prompt_credentials w f pa).1 ≠ [] := by
  unfold Upa.check_or_prompt_credentials
  dsimp only
  split
  · simp [Upa.prompt_for_credentials]
  · next hcond =>
    intro hnil
    dsimp only at hnil
    rw [hnil] at hcond
    simp [Upa.requiredKeys, Upa.lookupKV, Upa.strOptTruthy] at hcond

/-- `FS.addFile` never changes the directory list. -/
theorem addFile_dirs (fs : Upa.FS) (p : String) : (fs.addFile p).dirs = fs.dirs := by
  unfold Upa.FS.addFile
  split <;> rfl

/-- Every `run` reduces to `stagesPart` on a pre-stage state whose
directories are the world's, whose stage counters and deletion counter are
zero, and whose files are the world's possibly extended by the env file. -/
theorem run_eq_stagesPart (cfg : Upa.Config) (w : Upa.World) (pa : Upa.PromptAnswers)
    (rarT parT upT : Upa.ToolRun) :
    ∃ s1 : Upa.OState,
      Upa.run cfg w pa rarT parT upT = Upa.stagesPart cfg rarT parT upT s1 ∧
      s1.fs.dirs = w.fs.dirs ∧ s1.rarFile = none ∧ s1.parFile = none ∧
      s1.eff.rarCalls = 0 ∧ s1.eff.parCalls = 0 ∧ s1.eff.uploadCalls = 0 ∧
      s1.eff.deletions = 0 ∧
      (∀ p, p ∈ s1.fs.files → p = cfg.envFile ∨ p ∈ w.fs.files) := by
  unfold Upa.run
  by_cases hsu : cfg.skipUpload
  · rw [if_pos hsu]
    exact ⟨{ fs := w.fs }, rfl, rfl, rfl, rfl, rfl, rfl, rfl, rfl, fun p hp => Or.inr hp⟩
  · rw [if_neg hsu]
    dsimp only
    rw [if_neg (by simp [List.isEmpty_iff, check_or_prompt_ne_nil w cfg.envFile pa])]
    by_cases hw : (Upa.check_or_prompt_credentials w cfg.envFile pa).2
    · rw [if_pos hw]
      refine ⟨_, rfl, addFile_dirs w.fs cfg.envFile, rfl, rfl, rfl, rfl, rfl, rfl, ?_⟩
      intro p hp
      unfold Upa.FS.addFile at hp
      by_cases hcont : w.fs.files.contains cfg.envFile
      · rw [if_pos hcont] at hp
        exact Or.inr hp
      · rw [if_neg hcont] at hp
        rcases List.mem_cons.mp hp with h | h
        · exact Or.inl h
        · exact Or.inr h
    · rw [if_neg hw]
      exact ⟨{ fs := w.fs }, rfl, rfl, rfl, rfl, rfl, rfl, rfl, rfl, fun p hp => Or.inr hp⟩

/-! ## Claim C6 -/

/-- Claim C6: with `--skip-rar` set and no archive at the derived path
`<parent>/<folder-name>.rar`, a run on a valid input folder exits with code
1 and never invokes the external archiver (nor any other stage tool). -/
theorem skip_rar_missing_archive_exits_one (cfg : Upa.Config) (w : Upa.World)
    (pa : Upa.PromptAnswers) (rarT parT upT : Upa.ToolRun)
    (hskip : cfg.skipRar = true)
    (hdir : Upa.folderPath cfg ∈ w.fs.dirs)
    (hf : Upa.rarPath cfg ∉ w.fs.files)
    (hd : Upa.rarPath cfg ∉ w.fs.dirs)
    (henv : Upa.rarPath cfg ≠ cfg.envFile) :
    (Upa.run cfg w pa rarT parT upT).1 = 1 ∧
    (Upa.run cfg w pa rarT parT upT).2.eff.rarCalls = 0 ∧
    (Upa.run cfg w pa rarT parT upT).2.eff.parCalls = 0 ∧
    (Upa.run cfg w pa rarT parT upT).2.eff.uploadCalls = 0 := by
  obtain ⟨s1, hrun, hdirs, hrar, hpar, hrc, hpc, huc, hdel, hfiles⟩ :=
    run_eq_stagesPart cfg w pa rarT parT upT
  have hmem : Upa.folderPath cfg ∈ s1.fs.dirs := by
    rw [hdirs]; exact hdir
  have hval : Upa.validate cfg s1.fs = true := by
    simp [Upa.validate, Upa.FS.pathExists, Upa.FS.isDir, hmem]
  have hexf : Upa.rarPath cfg ∉ s1.fs.files := by
    intro hc
    rcases hfiles (Upa.rarPath cfg) hc with h | h
    · exact henv h
    · exact hf h
  have hexd : Upa.rarPath cfg ∉ s1.fs.dirs := by
    rw [hdirs]; exact hd
  have hmk : Upa.run_makerar cfg rarT s1 = (.skipMissing, s1) := by
    unfold Upa.run_makerar
    rw [if_pos hskip]
    simp [Upa.FS.pathExists, hexf, hexd]
  rw [hrun]
  unfold Upa.stagesPart
  rw [hval]
  simp only [Bool.not_true, Bool.false_eq_true, if_false, hmk]
  simp [Upa.StageOutcome.success, hrc, hpc, huc]

/-- Witness for C6 at a concrete world with a valid folder and no archive. -/
theorem skip_rar_missing_archive_exits_one_witness :
    (Upa.run { folderParent := "/home", folderName := "fotos", skipRar := true }
        { fs := { files := [".env"], dirs := ["/home/fotos"] },
          envVars := [("NNTP_HOST", "news.real.com"), ("NNTP_PORT", "563"),
                      ("NNTP_USER", "u"), ("NNTP_PASS", "p"), ("USENET_GROUP", "a.b.t")] }
        ⟨"", "", "", "", ""⟩ {} {} {}).1 = 1 ∧
    (Upa.run { folderParent := "/home", folderName := "fotos", skipRar := true }
        { fs := { files := [".env"], dirs := ["/home/fotos"] },
          envVars := [("NNTP_HOST", "news.real.com"), ("NNTP_PORT", "563"),
                      ("NNTP_USER", "u"), ("NNTP_PASS", "p"), ("USENET_GROUP", "a.b.t")] }
        ⟨"", "", "", "", ""⟩ {} {} {}).2.eff.rarCalls = 0 ∧
    (Upa.run { folderParent := "/home", folderName := "fotos", skipRar := true }
        { fs := { files := [".env"], dirs := ["/home/fotos"] },
          envVars := [("NNTP_HOST", "news.real.com"), ("NNTP_PORT", "563"),
                      ("NNTP_USER", "u"), ("NNTP_PASS", "p"), ("USENET_GROUP", "a.b.t")] }
        ⟨"", "", "", "", ""⟩ {} {} {}).2.eff.parCalls = 0 ∧
    (Upa.run { folderParent := "/home", folderName := "fotos", skipRar := true }
        { fs := { files := [".env"], dirs := ["/home/fotos"] },
          envVars := [("NNTP_HOST", "news.real.com"), ("NNTP_PORT", "563"),
                      ("NNTP_USER", "u"), ("NNTP_PASS", "p"), ("USENET_GROUP", "a.b.t")] }
        ⟨"", "", "", "", ""⟩ {} {} {}).2.eff.uploadCalls = 0 :=
  skip_rar_missing_archive_exits_one _ _ _ _ _ _
    rfl (by decide) (by decide) (by decide) (by decide)

/-! ## Claim C9 -/

/-- Claim C9 counterexample: a run that fails folder validation exits with
code 1 — exactly the code the exit-code table reserves for archive-stage
failure (second conjunct: a genuine archive-stage failure, `--skip-rar`
with no archive, also exits 1) — so there is no distinguished exit code
reserved for validation failure. -/
theorem validation_exit_code_not_distinguished :
    (Upa.run { folderParent := "/home", folderName := "nope", skipUpload := true }
        { fs := { files := [".env"], dirs := ["/home/fotos"] }, envVars := [] }
        ⟨"", "", "", "", ""⟩ {} {} {}).1 = 1 ∧
    (Upa.run { folderParent := "/home", folderName := "fotos", skipUpload := true,
               skipRar := true }
        { fs := { files := [".env"], dirs := ["/home/fotos"] }, envVars := [] }
        ⟨"", "", "", "", ""⟩ {} {} {}).1 = 1 := by
  exact ⟨by decide, by decide⟩

/-- Claim C9 (amended): a run whose input folder is not a directory aborts
before any stage executes (zero invocations of any stage tool, zero
deletions) with exit code 1 — the code shared with archive-stage failure,
not a distinguished validation code.  (The credential-failure branch of
`run` returns 3, as the exit-code table says, but credential resolution in
fact cannot fail: the prompt always produces a non-empty credential set —
see `check_or_prompt_ne_nil`.) -/
theorem invalid_folder_exits_one_before_stages (cfg : Upa.Config) (w : Upa.World)
    (pa : Upa.PromptAnswers) (rarT parT upT : Upa.ToolRun)
    (h : Upa.folderPath cfg ∉ w.fs.dirs) :
    (Upa.run cfg w pa rarT parT upT).1 = 1 ∧
    (Upa.run cfg w pa rarT parT upT).2.eff.rarCalls = 0 ∧
    (Upa.run cfg w pa rarT parT upT).2.eff.parCalls = 0 ∧
    (Upa.run cfg w pa rarT parT upT).2.eff.uploadCalls = 0 ∧
    (Upa.run cfg w pa rarT parT upT).2.eff.deletions = 0 := by
  obtain ⟨s1, hrun, hdirs, hrar, hpar, hrc, hpc, huc, hdel, hfiles⟩ :=
    run_eq_stagesPart cfg w pa rarT parT upT
  have hmem : Upa.folderPath cfg ∉ s1.fs.dirs := by
    rw [hdirs]; exact h
  have hval : Upa.validate cfg s1.fs = false := by
    simp [Upa.validate, Upa.FS.isDir, hmem]
  rw [hrun]
  unfold Upa.stagesPart
  rw [hval]
  simp [hrc, hpc, huc, hdel]

/-- Witness for the amended C9 theorem at a concrete missing folder. -/
theorem invalid_folder_exits_one_before_stages_witness :
    (Upa.run { folderParent := "/home", folderName := "nada" }
        { fs := { files := [".env"], dirs := [] }, envVars := [] }
        ⟨"h", "563", "u", "p", "g"⟩ {} {} {}).1 = 1 ∧
    (Upa.run { folderParent := "/home", folderName := "nada" }
        { fs := { files := [".env"], dirs := [] }, envVars := [] }
        ⟨"h", "563", "u", "p", "g"⟩ {} {} {}).2.eff.rarCalls = 0 ∧
    (Upa.run { folderParent := "/home", folderName := "nada" }
        { fs := { files := [".env"], dirs := [] }, envVars := [] }
        ⟨"h", "563", "u", "p", "g"⟩ {} {} {}).2.eff.parCalls = 0 ∧
    (Upa.run { folderParent := "/home", folderName := "nada" }
        { fs := { files := [".env"], dirs := [] }, envVars := [] }
        ⟨"h", "563", "u", "p", "g"⟩ {} {} {}).2.eff.uploadCalls = 0 ∧
    (Upa.run { folderParent := "/home", folderName := "nada" }
        { fs := { files := [".env"], dirs := [] }, envVars := [] }
        ⟨"h", "563", "u", "p", "g"⟩ {} {} {}).2.eff.deletions = 0 :=
  invalid_folder_exits_one_before_stages _ _ _ _ _ _ (by decide)

/-! ## Claim C8 -/

/-- The deletion loop only removes files. -/
theorem deleteAll_subset (L : List String) (fs : Upa.FS) (p : String)
    (h : p ∈ (Upa.deleteAll L fs).1.files) : p ∈ fs.files := by
  induction L generalizing fs with
  | nil => exact h
  | cons q L ih =>
    unfold Upa.deleteAll at h
    by_cases hq : fs.files.contains q
    · rw [if_pos hq] at h
      have h2 := ih (fs.removeFile q) h
      unfold Upa.FS.removeFile at h2
      exact List.mem_of_mem_filter h2
    · rw [if_neg hq] at h
      exact ih fs h

/-- The deletion loop never changes the directory list. -/
theorem deleteAll_dirs (L : List String) (fs : Upa.FS) :
    (Upa.deleteAll L fs).1.dirs = fs.dirs := by
  induction L generalizing fs with
  | nil => rfl
  | cons q L ih =>
    unfold Upa.deleteAll
    by_cases hq : fs.files.contains q
    · rw [if_pos hq]
      exact ih (fs.removeFile q)
    · rw [if_neg hq]
      exact ih fs

/-- After the deletion loop runs, no path of its list remains as a file. -/
theorem deleteAll_removes (L : List String) (fs : Upa.FS) (p : String)
    (h : p ∈ L) : p ∉ (Upa.deleteAll L fs).1.files := by
  induction L generalizing fs with
  | nil => cases h
  | cons q L ih =>
    unfold Upa.deleteAll
    rcases List.mem_cons.mp h with hpq | hpL
    · subst hpq
      by_cases hq : fs.files.contains p
      · rw [if_pos hq]
        intro hmem
        have h2 := deleteAll_subset L (fs.removeFile p) p hmem
        unfold Upa.FS.removeFile at h2
        have := List.of_mem_filter h2
        simp at this
      · rw [if_neg hq]
        intro hmem
        exact hq (List.elem_eq_true_of_mem (deleteAll_subset L fs p hmem))
    · by_cases hq : fs.files.contains q
      · rw [if_pos hq]
        exact ih (fs.removeFile q) hpL
      · rw [if_neg hq]
        exact ih fs hpL

/-- The deletion loop on a list with no existing file deletes nothing. -/
theorem deleteAll_noop (L : List String) (fs : Upa.FS)
    (h : ∀ p ∈ L, p ∉ fs.files) : Upa.deleteAll L fs = (fs, 0) := by
  induction L with
  | nil => rfl
  | cons q L ih =>
    unfold Upa.deleteAll
    rw [if_neg (by
      intro hc
      exact h q (List.mem_cons_self q L) (List.mem_of_elem_eq_true hc))]
    exact ih (fun p hp => h p (List.mem_cons_of_mem q hp))

/-- `cleanup` preserves the recorded artifact paths. -/
theorem cleanup_keeps_paths (cfg : Upa.Config) (s : Upa.OState) :
    (Upa.cleanup cfg s).rarFile = s.rarFile ∧ (Upa.cleanup cfg s).parFile = s.parFile := by
  unfold Upa.cleanup
  split
  · exact ⟨rfl, rfl⟩
  · exact ⟨rfl, rfl⟩

/-- Every candidate the second `cleanup` would consider is no longer a file
after the first one. -/
theorem cleanup_second_targets_gone (cfg : Upa.Config) (s : Upa.OState)
    (hkeep : cfg.keepFiles = false) (p : String)
    (hp : p ∈ Upa.cleanupTargets (Upa.cleanup cfg s)) :
    p ∉ (Upa.cleanup cfg s).fs.files := by
  intro hmem
  have hfs : (Upa.cleanup cfg s).fs = (Upa.deleteAll (Upa.cleanupTargets s) s.fs).1 := by
    unfold Upa.cleanup
    rw [if_neg (by simp [hkeep])]
  have hrar : (Upa.cleanup cfg s).rarFile = s.rarFile := (cleanup_keeps_paths cfg s).1
  have hpar : (Upa.cleanup cfg s).parFile = s.parFile := (cleanup_keeps_paths cfg s).2
  rw [hfs] at hmem
  have hold : p ∈ s.fs.files := deleteAll_subset _ _ _ hmem
  have holdEx : s.fs.pathExists p = true := by
    simp [Upa.FS.pathExists, hold]
  -- p is a first-run candidate in each of the three component cases
  have hfirst : p ∈ Upa.cleanupTargets s := by
    unfold Upa.cleanupTargets at hp
    rcases List.mem_append.mp hp with hp2 | hvol
    · rcases List.mem_append.mp hp2 with hr | hpf
      · -- the rar-file component
        unfold Upa.cleanupTargets
        refine List.mem_append.mpr (Or.inl (List.mem_append.mpr (Or.inl ?_)))
        rw [hrar] at hr
        rcases hs : s.rarFile with _ | r
        · rw [hs] at hr; cases hr
        · rw [hs] at hr
          dsimp only at hr ⊢
          by_cases hne : (!(r == "") && (Upa.cleanup cfg s).fs.pathExists r) = true
          · rw [if_pos hne] at hr
            have hpr : p = r := List.mem_singleton.mp hr
            subst hpr
            rw [if_pos (by
              simp only [Bool.and_eq_true] at hne ⊢
              exact ⟨hne.1, holdEx⟩)]
            exact List.mem_singleton.mpr rfl
          · rw [if_neg hne] at hr; cases hr
      · -- the par-file component
        unfold Upa.cleanupTargets
        refine List.mem_append.mpr (Or.inl (List.mem_append.mpr (Or.inr ?_)))
        rw [hpar] at hpf
        rcases hs : s.parFile with _ | pf
        · rw [hs] at hpf; cases hpf
        · rw [hs] at hpf
          dsimp only at hpf ⊢
          by_cases hne : (!(pf == "") && (Upa.cleanup cfg s).fs.pathExists pf) = true
          · rw [if_pos hne] at hpf
            have hpr : p = pf := List.mem_singleton.mp hpf
            subst hpr
            rw [if_pos (by
              simp only [Bool.and_eq_true] at hne ⊢
              exact ⟨hne.1, holdEx⟩)]
            exact List.mem_singleton.mpr rfl
          · rw [if_neg hne] at hpf; cases hpf
    · -- the parity-volume glob component
      unfold Upa.cleanupTargets
      refine List.mem_append.mpr (Or.inr ?_)
      rw [hrar] at hvol
      rcases hs : s.rarFile with _ | r
      · rw [hs] at hvol; cases hvol
      · rw [hs] at hvol
        dsimp only at hvol ⊢
        by_cases hne : (!(r == "")) = true
        · rw [if_pos hne] at hvol
          rw [if_pos hne]
          have hm := List.mem_filter.mp hvol
          exact List.mem_filter.mpr ⟨List.mem_append.mpr (Or.inl hold), hm.2⟩
        · rw [if_neg hne] at hvol; cases hvol
  exact deleteAll_removes (Upa.cleanupTargets s) s.fs p hfirst hmem

/-- A state none of whose cleanup candidates remains a file is a fixed point
of `cleanup`. -/
theorem cleanup_fixed (cfg : Upa.Config) (t : Upa.OState)
    (h : ∀ p ∈ Upa.cleanupTargets t, p ∉ t.fs.files) : Upa.cleanup cfg t = t := by
  unfold Upa.cleanup
  split
  · rfl
  · rw [deleteAll_noop _ _ h]
    rfl

/-- Claim C8: `cleanup` is idempotent — running it immediately again changes
nothing (in particular the deletion counter stays put, i.e. the second run
performs zero deletions and completes without error), and running it when
no target file exists returns the state unchanged with zero deletions. -/
theorem cleanup_idempotent_and_noop (cfg : Upa.Config) (s : Upa.OState) :
    Upa.cleanup cfg (Upa.cleanup cfg s) = Upa.cleanup cfg s ∧
    (Upa.cleanupTargets s = [] → Upa.cleanup cfg s = s) := by
  constructor
  · by_cases hkeep : cfg.keepFiles = true
    · have hid : ∀ t, Upa.cleanup cfg t = t := by
        intro t
        unfold Upa.cleanup
        rw [if_pos hkeep]
      rw [hid, hid]
    · exact cleanup_fixed cfg (Upa.cleanup cfg s)
        (fun p hp => cleanup_second_targets_gone cfg s (Bool.eq_false_iff.mpr hkeep) p hp)
  · intro hnil
    exact cleanup_fixed cfg s (fun p hp => by rw [hnil] at hp; cases hp)

/-- Witness for C8 at a concrete artifact set with nothing on disk. -/
theorem cleanup_idempotent_and_noop_witness :
    Upa.cleanup { folderParent := "/h", folderName := "x" }
        (Upa.cleanup { folderParent := "/h", folderName := "x" }
          { fs := { files := [], dirs := [] }, rarFile := some "/h/x.rar" })
      = Upa.cleanup { folderParent := "/h", folderName := "x" }
          { fs := { files := [], dirs := [] }, rarFile := some "/h/x.rar" } ∧
    Upa.cleanup { folderParent := "/h", folderName := "x" }
        { fs := { files := [], dirs := [] }, rarFile := some "/h/x.rar" }
      = { fs := { files := [], dirs := [] }, rarFile := some "/h/x.rar" } :=
  ⟨(cleanup_idempotent_and_noop { folderParent := "/h", folderName := "x" }
      { fs := { files := [], dirs := [] }, rarFile := some "/h/x.rar" }).1,
   (cleanup_idempotent_and_noop { folderParent := "/h", folderName := "x" }
      { fs := { files := [], dirs := [] }, rarFile := some "/h/x.rar" }).2 (by decide)⟩
